import Mathlib

/-!
Shallow embedding of the travel-assistant repository
(`travel_assistant.py` and `app.py`).

The Python program is a thin wrapper around an external chat-completion
HTTP API.  All I/O is modelled by explicit parameters:

* the outcome of the one outbound HTTP request is an `HttpOutcome`
  supplied by the environment (as a function of the request actually
  sent, so that theorems can constrain it);
* the current wall-clock time (`time.time()`) is a `now : Int` parameter;
* `initialize_chatbot` either succeeds or raises; the outcome is an
  `Option String` parameter (`none` = success, `some e` = the raised
  exception's message, e.g. the missing-credential RuntimeError);
* Python exceptions raised by the modelled code itself are an explicit
  `Except PyError` result;
* every entry-point model additionally returns the list of completion
  requests it performed, so that "no external call is made" is a
  statement about the model.

Python `dict` lookups on the parsed JSON body are modelled by `Option`
fields: `none` means the key is absent (or the whole value falsy where
the code tests truthiness).
-/

/-- Python whitespace as used by `str.split()` / `str.strip()`
(ASCII subset: space, tab, newline, carriage return, vertical tab,
form feed). -/
def pyIsSpace (c : Char) : Bool :=
  c = ' ' || c = '\t' || c = '\n' || c = '\r' || c = '\x0b' || c = '\x0c'

/-- `str.split()` with no separator: split on runs of whitespace,
discarding empty words.  Accumulator-based scan over the characters. -/
def splitWordsAux : List Char → List Char → List (List Char)
  | [], [] => []
  | [], acc => [acc.reverse]
  | c :: rest, acc =>
    if pyIsSpace c then
      match acc with
      | [] => splitWordsAux rest []
      | _ :: _ => acc.reverse :: splitWordsAux rest []
    else splitWordsAux rest (c :: acc)

/-- `len(user_input.split())` — the whitespace-separated word count. -/
def pyWordCount (s : String) : Nat :=
  (splitWordsAux s.data []).length

/-- `str.strip()` on a character list: drop leading and trailing
whitespace. -/
def pyStripList (l : List Char) : List Char :=
  ((l.dropWhile pyIsSpace).reverse.dropWhile pyIsSpace).reverse

/-- Python `s.strip()`. -/
def pyStrip (s : String) : String :=
  String.mk (pyStripList s.data)

/-- Python `s.lower()` (ASCII case folding, as `Char.toLower`). -/
def pyLower (s : String) : String :=
  String.mk (s.data.map Char.toLower)

/-- `ConversationTurn` dataclass of `travel_assistant.py`. -/
structure ConversationTurn where
  user_message : String
  assistant_response : String
  timestamp : Int
  search_triggered : Bool
deriving DecidableEq

/-- The `role` field of a message sent to the completion API. -/
inductive Role
  | system
  | user
  | assistant
deriving DecidableEq

/-- One message of the request body: `{"role": ..., "content": ...}`. -/
structure Message where
  role : Role
  content : String
deriving DecidableEq

/-- `response['choices'][i]['message']` — the `content` key may be
absent from the JSON object. -/
structure ChoiceMsg where
  content : Option String
deriving DecidableEq

/-- One element of `response['choices']` — the `message` key may be
absent. -/
structure Choice where
  message : Option ChoiceMsg
deriving DecidableEq

/-- The parsed JSON response body.  `choices = none` models a body with
no `'choices'` key (this also covers the falsy empty dict tested by
`not response`). -/
structure ApiResponse where
  choices : Option (List Choice)
deriving DecidableEq

/-- Outcome of the one HTTP exchange performed by `PerplexityAPI.chat`:
`requests.post` may raise a transport-level `RequestException`;
`raise_for_status` raises `HTTPError` on an error status; a 2xx body
that is not valid JSON makes `response.json()` raise `JSONDecodeError`
(a `RequestException` subclass); otherwise the parsed body is
available. -/
inductive HttpOutcome
  | transportError (msg : String)
  | httpError (code : Nat) (msg : String)
  | malformedBody (msg : String)
  | ok (body : ApiResponse)
deriving DecidableEq

/-- Python exceptions that the modelled code itself can raise. -/
inductive PyError
  | indexError
  | keyError (key : String)
deriving DecidableEq

/-- `str(e)` for the exceptions of `PyError`. -/
def pyErrorStr : PyError → String
  | PyError.indexError => "list index out of range"
  | PyError.keyError k => "'" ++ k ++ "'"

/-- `PerplexityAPI.chat` (travel_assistant.py lines 42-68): the entire
body sits in `try: ... except requests.exceptions.RequestException:
console.print(...); return None`.  All three failure modes are
`RequestException`s, so the method returns `None` after logging; on
success it returns `response.json()` unchanged.  It never raises. -/
def PerplexityAPI.chat (outcome : HttpOutcome) : Option ApiResponse :=
  match outcome with
  | HttpOutcome.transportError _ => none
  | HttpOutcome.httpError _ _ => none
  | HttpOutcome.malformedBody _ => none
  | HttpOutcome.ok body => some body

/-- The fixed system prompt assigned in `TravelChatbot.__init__`. -/
def system_prompt : String :=
  "You are an EXCITED, friendly digital nomad travel assistant! 🌍\n\nRULES - FOLLOW THESE EXACTLY:\n✅ Keep responses SHORT and DIRECT (1-2 sentences max)\n✅ Use an EXCITING, enthusiastic tone with emojis\n✅ Give SPECIFIC, actionable info - no fluff or long explanations  \n✅ Be SUPER friendly and encouraging\n✅ NO lengthy descriptions or unnecessary details\n✅ Focus on what they NEED to know RIGHT NOW\n\nFor travel questions, give QUICK answers about:\n- Visa requirements (just the essentials)\n- Internet speeds (numbers and quick verdict)\n- Costs (specific prices, direct comparison)\n- Best locations (top 2-3 picks with why)\n- Coworking/accommodation (best options only)\n\nExamples of perfect responses:\n\"Portugal's D7 visa needs €2,760/month income proof - totally doable! 🇵🇹 Apply online, takes 2-3 months.\"\n\"Lisbon gets 200+ Mbps, perfect for remote work! 💻 Fiber everywhere, tons of coworking spaces.\"\n\"Bali is CHEAP! $500-800/month gets you a nice place. Food $2-5/meal. You'll save tons! 💰\"\n\nBe EXCITED to help but keep it SHORT and USEFUL!"

/-- The fixed fallback text returned by `TravelChatbot.chat` when the
client yields no usable result, and reused verbatim by `app.py`'s
exception handler. -/
def fallbackText : String :=
  "Oops! Something went wrong. Try again? 🤔"

/-- `TravelChatbot.get_conversation_context` (lines 100-111): system
prompt first, then each of the last `limit` turns expanded into a user
message followed by an assistant message, in order.
`self.conversation_history[-limit:] if self.conversation_history else []`
is the final `min limit n` turns. -/
def TravelChatbot.get_conversation_context
    (history : List ConversationTurn) (limit : Nat) : List Message :=
  let messages := [Message.mk Role.system system_prompt]
  let recent_turns :=
    if history = [] then [] else history.drop (history.length - limit)
  messages ++ recent_turns.flatMap fun turn =>
    [Message.mk Role.user turn.user_message,
     Message.mk Role.assistant turn.assistant_response]

/-- The message list `TravelChatbot.chat` sends upstream (lines
122-124): the context with the default `limit = 4`, then the new user
message appended last. -/
def TravelChatbot.messagesSent
    (history : List ConversationTurn) (user_input : String) : List Message :=
  TravelChatbot.get_conversation_context history 4 ++
    [Message.mk Role.user user_input]

/-- The `search_context` local of `TravelChatbot.chat` (computed
identically in both the progress and non-progress branches, lines
136-143 and 148-154): `word_count = len(user_input.split())`, then
`> 15 → "high"`, `> 8 → "medium"`, else `"low"`. -/
def search_context_of (user_input : String) : String :=
  if pyWordCount user_input > 15 then "high"
  else if pyWordCount user_input > 8 then "medium"
  else "low"

abbrev ChatCalls := List (List Message × String)

/-- `TravelChatbot.chat` (lines 113-172).  Returns the Python result
(`Except` because the extraction
`response['choices'][0]['message']['content']` can raise) paired with
the updated history, and the list of completion-API calls performed
(always exactly one, with the assembled messages and the derived
search-context size).  `if not response or 'choices' not in response`
maps to the `none` cases of the response and of its `choices` field;
on the success path the turn is appended with `search_triggered=True`
and the extracted text is returned. -/
def TravelChatbot.chat (transport : List Message → String → HttpOutcome)
    (history : List ConversationTurn) (user_input : String) (now : Int) :
    Except PyError (String × List ConversationTurn) × ChatCalls :=
  let messages := TravelChatbot.messagesSent history user_input
  let search_context := search_context_of user_input
  (match PerplexityAPI.chat (transport messages search_context) with
   | none => Except.ok (fallbackText, history)
   | some response =>
     match response.choices with
     | none => Except.ok (fallbackText, history)
     | some [] => Except.error PyError.indexError
     | some (c :: _) =>
       match c.message with
       | none => Except.error (PyError.keyError "message")
       | some m =>
         match m.content with
         | none => Except.error (PyError.keyError "content")
         | some assistant_response =>
           Except.ok (assistant_response,
             history ++
               [ConversationTurn.mk user_input assistant_response now true]),
   [(messages, search_context)])

/-- The `ChatResponse` pydantic model of `app.py`. -/
structure ChatResponse where
  response : String
  success : Bool
  error : Option String
deriving DecidableEq

/-- The canned prompt-for-input reply of `chat_endpoint` for an
empty/whitespace-only message. -/
def canned_reply : String :=
  "💭 I'm ready when you are! Ask me anything about travel!"

/-- `chat_endpoint` (`POST /api/chat`, app.py lines 90-115).  `init`
models the outcome of `initialize_chatbot()` (`some e` = it raised with
message `e`).  The whole body sits in `try: ... except Exception as e:
return ChatResponse(response="Oops! ...", success=False, error=str(e))`;
an empty `message.strip()` short-circuits to the canned reply with
`success=True` before any chatbot call.  Returns the response body, the
updated history, and the completion-API calls performed. -/
def chat_endpoint (transport : List Message → String → HttpOutcome)
    (init : Option String) (history : List ConversationTurn)
    (message : String) (now : Int) :
    ChatResponse × List ConversationTurn × ChatCalls :=
  match init with
  | some e => (ChatResponse.mk fallbackText false (some e), history, [])
  | none =>
    if pyStrip message = "" then
      (ChatResponse.mk canned_reply true none, history, [])
    else
      match TravelChatbot.chat transport history message now with
      | (Except.ok (text, h'), calls) =>
        (ChatResponse.mk text true none, h', calls)
      | (Except.error e, calls) =>
        (ChatResponse.mk fallbackText false (some (pyErrorStr e)),
         history, calls)

/-- The body returned by `health_check` (`GET /api/health`). -/
structure HealthResponse where
  status : String
  chatbot_ready : Bool
  message : String
  environment : String
deriving DecidableEq

/-- `health_check` (app.py lines 117-131): tries `initialize_chatbot()`;
on any exception sets `chatbot_ready = False`; always returns a body
with `status = "healthy"`.  (`initialize_chatbot` never returns `None`,
so on success `current_chatbot is not None` is `True`.)  `vercel` is
the truthiness of the `VERCEL` environment variable. -/
def health_check (init : Option String) (vercel : Bool) : HealthResponse :=
  HealthResponse.mk "healthy"
    (match init with
     | none => true
     | some _ => false)
    "🌍 Travel Assistant API is running!"
    (if vercel then "vercel" else "local")

/-- The body returned by `get_stats` (`GET /api/stats`): either the
stats dict or the `{"error": ...}` dict of the exception handler. -/
inductive StatsResponse
  | stats (total_conversations : Nat) (last_activity : Option Int)
  | errorBody (msg : String)
deriving DecidableEq

/-- `get_stats` (app.py lines 133-143): on an initialization exception
returns the error body; otherwise `total_conversations` is
`len(history)` and `last_activity` is
`history[-1].timestamp if history else None`. -/
def get_stats (init : Option String)
    (history : List ConversationTurn) : StatsResponse :=
  match init with
  | some _ => StatsResponse.errorBody "Chatbot not initialized"
  | none =>
    StatsResponse.stats history.length
      (history.getLast?.map ConversationTurn.timestamp)

/-- `single_question_mode` (travel_assistant.py lines 184-192): prints
the question, forwards it to `chatbot.chat` unconditionally (no
emptiness check), and prints the response. -/
def single_question_mode (transport : List Message → String → HttpOutcome)
    (history : List ConversationTurn) (question : String) (now : Int) :
    Except PyError (String × List ConversationTurn) × ChatCalls :=
  TravelChatbot.chat transport history question now

/-- What one iteration of the interactive loop does after reading a
line. -/
inductive LoopAction
  | exitLoop
  | promptAgain
  | answered (response : String)
  | errorPrinted (msg : String)
deriving DecidableEq

/-- One iteration of the `interactive_mode` loop (travel_assistant.py
lines 208-236): exit on `user_input.lower().strip()` in the exit list;
skip (print "I'm ready when you are!") on empty `user_input.strip()`;
otherwise call `chatbot.chat`; any exception is caught and printed and
the loop continues. -/
def interactive_step (transport : List Message → String → HttpOutcome)
    (history : List ConversationTurn) (user_input : String) (now : Int) :
    LoopAction × List ConversationTurn × ChatCalls :=
  if pyStrip (pyLower user_input) ∈ ["quit", "exit", "bye", "goodbye"] then
    (LoopAction.exitLoop, history, [])
  else if pyStrip user_input = "" then
    (LoopAction.promptAgain, history, [])
  else
    match TravelChatbot.chat transport history user_input now with
    | (Except.ok (res, h'), calls) => (LoopAction.answered res, h', calls)
    | (Except.error e, calls) =>
      (LoopAction.errorPrinted (pyErrorStr e), history, calls)

/-- `main` (travel_assistant.py lines 274-280): single-question mode is
entered iff `args.question` is truthy, i.e. present and non-empty. -/
def main_uses_single_question_mode (question : Option String) : Bool :=
  match question with
  | none => false
  | some q => q ≠ ""

/-- A transport whose one call succeeds with a single choice carrying
`text` — used to instantiate success-path theorems. -/
def transportOk (text : String) : List Message → String → HttpOutcome :=
  fun _ _ =>
    HttpOutcome.ok
      (ApiResponse.mk (some [Choice.mk (some (ChoiceMsg.mk (some text)))]))

/-! ## Helper lemmas -/

theorem length_turn_expansion (l : List ConversationTurn) :
    (l.flatMap fun turn =>
      [Message.mk Role.user turn.user_message,
       Message.mk Role.assistant turn.assistant_response]).length =
      2 * l.length := by
  induction l with
  | nil => rfl
  | cons t ts ih =>
    simp only [List.flatMap_cons, List.length_append, List.length_cons,
      List.length_nil, ih]
    omega

theorem pyStripList_eq_nil_iff (l : List Char) :
    pyStripList l = [] ↔ ∀ c ∈ l, pyIsSpace c := by
  unfold pyStripList
  rw [List.reverse_eq_nil_iff, List.dropWhile_eq_nil_iff]
  constructor
  · intro h c hc
    have hd : l.dropWhile pyIsSpace = [] := by
      rw [← List.dropWhile_idempotent pyIsSpace l,
        List.dropWhile_eq_nil_iff]
      exact fun x hx => h x (List.mem_reverse.mpr hx)
    rw [List.dropWhile_eq_nil_iff] at hd
    exact hd c hc
  · intro h x hx
    exact h x ((List.dropWhile_sublist pyIsSpace).subset
      (List.mem_reverse.mp hx))

theorem pyIsSpace_toLower (c : Char) (h : pyIsSpace c) :
    Char.toLower c = c := by
  simp only [pyIsSpace, Bool.or_eq_true, decide_eq_true_eq] at h
  rcases h with ((((h | h) | h) | h) | h) | h <;> subst h <;> decide

theorem pyStrip_pyLower_empty (s : String) (h : pyStrip s = "") :
    pyStrip (pyLower s) = "" := by
  have hl : pyStripList s.data = [] := congrArg String.data h
  have hall : ∀ c ∈ s.data, pyIsSpace c := (pyStripList_eq_nil_iff _).mp hl
  have hall2 : ∀ c ∈ s.data.map Char.toLower, pyIsSpace c := by
    intro c hc
    rcases List.mem_map.mp hc with ⟨x, hx, hxc⟩
    rw [← hxc, pyIsSpace_toLower x (hall x hx)]
    exact hall x hx
  show String.mk (pyStripList (String.mk (s.data.map Char.toLower)).data) = ""
  rw [show (String.mk (s.data.map Char.toLower)).data =
        s.data.map Char.toLower from rfl,
      (pyStripList_eq_nil_iff _).mpr hall2]

/-- Case analysis on the result of `TravelChatbot.chat`: it either
returns the fallback with the history untouched, raises, or returns the
extracted text with exactly the one new turn appended. -/
theorem chat_history_cases (transport : List Message → String → HttpOutcome)
    (history : List ConversationTurn) (input : String) (now : Int) :
    (TravelChatbot.chat transport history input now).1 =
        Except.ok (fallbackText, history) ∨
    (∃ e, (TravelChatbot.chat transport history input now).1 =
        Except.error e) ∨
    (∃ text, (TravelChatbot.chat transport history input now).1 =
        Except.ok (text,
          history ++ [ConversationTurn.mk input text now true])) := by
  rcases hresp : PerplexityAPI.chat
      (transport (TravelChatbot.messagesSent history input)
        (search_context_of input)) with _ | ⟨choices⟩
  · left
    simp [TravelChatbot.chat, hresp]
  · rcases choices with _ | cs
    · left
      simp [TravelChatbot.chat, hresp]
    · rcases cs with _ | ⟨c, rest⟩
      · right; left
        exact ⟨PyError.indexError, by simp [TravelChatbot.chat, hresp]⟩
      · rcases c with ⟨_ | m⟩
        · right; left
          exact ⟨PyError.keyError "message",
            by simp [TravelChatbot.chat, hresp]⟩
        · rcases m with ⟨_ | t⟩
          · right; left
            exact ⟨PyError.keyError "content",
              by simp [TravelChatbot.chat, hresp]⟩
          · right; right
            exact ⟨t, by simp [TravelChatbot.chat, hresp]⟩

/-! ## Claim theorems -/

/-- C1, counterexample: with the chatbot initialized, a non-empty
message, and an upstream call that fails (the Completion Client
returns `None`), the web `/api/chat` response has `success = true` and
`error = none` — contradicting the claim that it has `success = false`
with the error field populated.  (`TravelChatbot.chat` absorbs the
failure and returns the fallback string as an ordinary value, which
`chat_endpoint` wraps as a success.) -/
theorem C1_counterexample :
    (chat_endpoint (fun _ _ => HttpOutcome.transportError "connection error")
        none [] "What about Lisbon?" 0).1.success = true ∧
    (chat_endpoint (fun _ _ => HttpOutcome.transportError "connection error")
        none [] "What about Lisbon?" 0).1.error = none ∧
    (chat_endpoint (fun _ _ => HttpOutcome.transportError "connection error")
        none [] "What about Lisbon?" 0).1.response = fallbackText ∧
    (chat_endpoint (fun _ _ => HttpOutcome.transportError "connection error")
        none [] "What about Lisbon?" 0).2.1 = [] :=
  ⟨rfl, rfl, rfl, rfl⟩

/-- C1, amended: for every chat request whose upstream Completion
Client call fails (null result), the conversation history length is
unchanged and the returned response text equals the fixed fallback
string, but the web `/api/chat` response has `success = true` with
`error` absent (the failure is absorbed inside `TravelChatbot.chat`,
so the endpoint's exception handler — the only producer of
`success = false` — is never reached). -/
theorem C1_upstream_failure (transport : List Message → String → HttpOutcome)
    (history : List ConversationTurn) (message : String) (now : Int)
    (hmsg : pyStrip message ≠ "")
    (hfail : PerplexityAPI.chat
        (transport (TravelChatbot.messagesSent history message)
          (search_context_of message)) = none) :
    (chat_endpoint transport none history message now).1.response =
        fallbackText ∧
    (chat_endpoint transport none history message now).1.success = true ∧
    (chat_endpoint transport none history message now).1.error = none ∧
    (chat_endpoint transport none history message now).2.1 = history := by
  have hchat : TravelChatbot.chat transport history message now =
      (Except.ok (fallbackText, history),
       [(TravelChatbot.messagesSent history message,
         search_context_of message)]) := by
    simp [TravelChatbot.chat, hfail]
  simp [chat_endpoint, hmsg, hchat]

/-- C1, witness for `C1_upstream_failure` at a concrete failing
transport and non-empty message. -/
theorem C1_upstream_failure_witness :
    (chat_endpoint (fun _ _ => HttpOutcome.transportError "timeout") none []
        "Best coworking in Bali" 0).1.response = fallbackText ∧
    (chat_endpoint (fun _ _ => HttpOutcome.transportError "timeout") none []
        "Best coworking in Bali" 0).1.success = true ∧
    (chat_endpoint (fun _ _ => HttpOutcome.transportError "timeout") none []
        "Best coworking in Bali" 0).1.error = none ∧
    (chat_endpoint (fun _ _ => HttpOutcome.transportError "timeout") none []
        "Best coworking in Bali" 0).2.1 = [] :=
  C1_upstream_failure (fun _ _ => HttpOutcome.transportError "timeout") []
    "Best coworking in Bali" 0 (by decide) rfl

/-- C2: the derived search-breadth parameter is a deterministic
function of the whitespace-split word count alone: more than 15 words
yields "high", more than 8 (i.e. 9 to 15) yields "medium", and at most
8 yields "low". -/
theorem C2_search_breadth (s : String) :
    (pyWordCount s > 15 → search_context_of s = "high") ∧
    (pyWordCount s > 8 → pyWordCount s ≤ 15 →
      search_context_of s = "medium") ∧
    (pyWordCount s ≤ 8 → search_context_of s = "low") ∧
    (∀ t : String, pyWordCount s = pyWordCount t →
      search_context_of s = search_context_of t) := by
  refine ⟨fun h => ?_, fun h1 h2 => ?_, fun h => ?_, fun t h => ?_⟩
  · unfold search_context_of
    rw [if_pos h]
  · unfold search_context_of
    rw [if_neg (by omega), if_pos h1]
  · unfold search_context_of
    rw [if_neg (by omega), if_neg (by omega)]
  · unfold search_context_of
    rw [h]

/-- C2, witness for `C2_search_breadth` at a concrete 5-word input. -/
theorem C2_search_breadth_witness :
    search_context_of "Tell me about Bali visas" = "low" :=
  (C2_search_breadth "Tell me about Bali visas").2.2.1 (by decide)

/-- C3, counterexample: a response whose `choices` field is present but
an empty list does NOT make the chat operation return the fallback
text — it raises `IndexError` (the code checks only
`'choices' not in response` before indexing `response['choices'][0]`),
contradicting the claim's "including a response object whose list of
completion choices is absent or empty ... without raising any
exception". -/
theorem C3_counterexample :
    (TravelChatbot.chat
        (fun _ _ => HttpOutcome.ok (ApiResponse.mk (some [])))
        [] "Visa rules for Japan" 0).1 =
      Except.error PyError.indexError := rfl

/-- C3, amended: for every Completion Client result that is null or
missing the `choices` field, `TravelChatbot.chat` returns the fixed
fallback text without raising and without appending to the history; a
result whose `choices` list is present but empty is not covered and
instead raises `IndexError`. -/
theorem C3_missing_choices (transport : List Message → String → HttpOutcome)
    (history : List ConversationTurn) (input : String) (now : Int)
    (h : PerplexityAPI.chat
          (transport (TravelChatbot.messagesSent history input)
            (search_context_of input)) = none ∨
        ∃ r, PerplexityAPI.chat
            (transport (TravelChatbot.messagesSent history input)
              (search_context_of input)) = some r ∧ r.choices = none) :
    (TravelChatbot.chat transport history input now).1 =
      Except.ok (fallbackText, history) := by
  rcases h with h | ⟨r, hr, hch⟩
  · simp [TravelChatbot.chat, h]
  · simp [TravelChatbot.chat, hr, hch]

/-- C3, witness for `C3_missing_choices` at a concrete failing
transport (HTTP 500). -/
theorem C3_missing_choices_witness :
    (TravelChatbot.chat
        (fun _ _ => HttpOutcome.httpError 500 "Internal Server Error")
        [] "Best cafes in Lisbon" 0).1 =
      Except.ok (fallbackText, []) :=
  C3_missing_choices
    (fun _ _ => HttpOutcome.httpError 500 "Internal Server Error")
    [] "Best cafes in Lisbon" 0 (Or.inl rfl)

/-- C4, counterexample: a whitespace-only question supplied as the CLI
positional argument is truthy, so `main` enters single-question mode,
which performs no emptiness check and makes one Completion Client
call — contradicting the claim that no external call is made on any
entry point for whitespace-only input. -/
theorem C4_counterexample :
    pyStrip "   " = "" ∧
    main_uses_single_question_mode (some "   ") = true ∧
    (single_question_mode (fun _ _ => HttpOutcome.transportError "x") []
        "   " 0).2.length = 1 :=
  ⟨rfl, rfl, rfl⟩

/-- C4, amended: for every empty or whitespace-only input message, the
web `/api/chat` endpoint makes no Completion Client call and returns
the canned prompt-for-input reply with `success = true`, and one
iteration of the interactive loop makes no call either (it prints the
ready prompt and loops); single-question mode has no such guard and
does call the client. -/
theorem C4_empty_input (transport : List Message → String → HttpOutcome)
    (history : List ConversationTurn) (message : String) (now : Int)
    (h : pyStrip message = "") :
    ((chat_endpoint transport none history message now).1 =
        ChatResponse.mk canned_reply true none ∧
     (chat_endpoint transport none history message now).2.2 = [] ∧
     (chat_endpoint transport none history message now).2.1 = history) ∧
    ((interactive_step transport history message now).1 =
        LoopAction.promptAgain ∧
     (interactive_step transport history message now).2.2 = [] ∧
     (interactive_step transport history message now).2.1 = history) := by
  have h1 : pyStrip (pyLower message) = "" := pyStrip_pyLower_empty _ h
  have hnotexit : pyStrip (pyLower message) ∉
      (["quit", "exit", "bye", "goodbye"] : List String) := by
    rw [h1]; decide
  constructor
  · simp [chat_endpoint, h]
  · simp [interactive_step, hnotexit, h]

/-- C4, witness for `C4_empty_input` at a concrete whitespace-only
message. -/
theorem C4_empty_input_witness :
    ((chat_endpoint (fun _ _ => HttpOutcome.transportError "x") none []
        " \t " 0).1 = ChatResponse.mk canned_reply true none ∧
     (chat_endpoint (fun _ _ => HttpOutcome.transportError "x") none []
        " \t " 0).2.2 = [] ∧
     (chat_endpoint (fun _ _ => HttpOutcome.transportError "x") none []
        " \t " 0).2.1 = []) ∧
    ((interactive_step (fun _ _ => HttpOutcome.transportError "x") []
        " \t " 0).1 = LoopAction.promptAgain ∧
     (interactive_step (fun _ _ => HttpOutcome.transportError "x") []
        " \t " 0).2.2 = [] ∧
     (interactive_step (fun _ _ => HttpOutcome.transportError "x") []
        " \t " 0).2.1 = []) :=
  C4_empty_input (fun _ _ => HttpOutcome.transportError "x") [] " \t " 0
    (by decide)

/-- C5: for every history and input, the assembled message list sent
upstream is exactly the fixed system prompt, then the last
`min 4 (history length)` turns in chronological order each expanded
into a user message followed by an assistant message, then the new
user message last; its length is `1 + 2 * min 4 (history length) + 1`
and never exceeds 10. -/
theorem C5_context_assembly (history : List ConversationTurn)
    (input : String) :
    TravelChatbot.messagesSent history input =
      Message.mk Role.system system_prompt ::
        ((history.drop (history.length - 4)).flatMap fun turn =>
          [Message.mk Role.user turn.user_message,
           Message.mk Role.assistant turn.assistant_response]) ++
        [Message.mk Role.user input] ∧
    (history.drop (history.length - 4)).length = min 4 history.length ∧
    (TravelChatbot.messagesSent history input).length =
      1 + 2 * min 4 history.length + 1 ∧
    (TravelChatbot.messagesSent history input).length ≤ 10 := by
  have hdrop : (history.drop (history.length - 4)).length =
      min 4 history.length := by
    rw [List.length_drop]
    omega
  have hstruct : TravelChatbot.messagesSent history input =
      Message.mk Role.system system_prompt ::
        ((history.drop (history.length - 4)).flatMap fun turn =>
          [Message.mk Role.user turn.user_message,
           Message.mk Role.assistant turn.assistant_response]) ++
        [Message.mk Role.user input] := by
    by_cases h : history = []
    · subst h; rfl
    · simp [TravelChatbot.messagesSent,
        TravelChatbot.get_conversation_context, h]
  have hlen : (TravelChatbot.messagesSent history input).length =
      1 + 2 * min 4 history.length + 1 := by
    rw [hstruct]
    simp only [List.cons_append, List.length_cons, List.length_append,
      length_turn_expansion, List.length_cons, List.length_nil, hdrop]
    omega
  exact ⟨hstruct, hdrop, hlen, by rw [hlen]; omega⟩

/-- C6: for every chat call whose upstream response carries a first
completion choice with message content, the history grows by exactly
the one new turn `(user_message = input, assistant_response =
extracted text, search_triggered = true)` appended at the end, and the
call returns that extracted text. -/
theorem C6_successful_call (transport : List Message → String → HttpOutcome)
    (history : List ConversationTurn) (input : String) (now : Int)
    (r : ApiResponse) (c : Choice) (rest : List Choice) (m : ChoiceMsg)
    (text : String)
    (hresp : PerplexityAPI.chat
        (transport (TravelChatbot.messagesSent history input)
          (search_context_of input)) = some r)
    (hchoices : r.choices = some (c :: rest))
    (hmsg : c.message = some m)
    (hcontent : m.content = some text) :
    (TravelChatbot.chat transport history input now).1 =
      Except.ok (text,
        history ++ [ConversationTurn.mk input text now true]) ∧
    (history ++ [ConversationTurn.mk input text now true]).length =
      history.length + 1 := by
  refine ⟨?_, by simp⟩
  simp [TravelChatbot.chat, hresp, hchoices, hmsg, hcontent]

/-- C6, witness for `C6_successful_call` at a concrete successful
transport. -/
theorem C6_successful_call_witness :
    (TravelChatbot.chat (transportOk "Lisbon is great!") []
        "Where should I go?" 3).1 =
      Except.ok ("Lisbon is great!",
        [] ++ [ConversationTurn.mk "Where should I go?"
          "Lisbon is great!" 3 true]) ∧
    (([] : List ConversationTurn) ++
        [ConversationTurn.mk "Where should I go?"
          "Lisbon is great!" 3 true]).length = 0 + 1 :=
  C6_successful_call (transportOk "Lisbon is great!") []
    "Where should I go?" 3
    (ApiResponse.mk (some [Choice.mk (some (ChoiceMsg.mk
      (some "Lisbon is great!")))]))
    (Choice.mk (some (ChoiceMsg.mk (some "Lisbon is great!")))) []
    (ChoiceMsg.mk (some "Lisbon is great!")) "Lisbon is great!"
    rfl rfl rfl rfl

/-- C7: `PerplexityAPI.chat` is total (no exception reaches the
caller, every branch returns): every transport failure, HTTP error
status, or malformed response body yields the null result `none`,
and a successful exchange returns the parsed body unchanged. -/
theorem C7_client_error_handling (o : HttpOutcome) :
    (∀ m, o = HttpOutcome.transportError m →
      PerplexityAPI.chat o = none) ∧
    (∀ code m, o = HttpOutcome.httpError code m →
      PerplexityAPI.chat o = none) ∧
    (∀ m, o = HttpOutcome.malformedBody m →
      PerplexityAPI.chat o = none) ∧
    (∀ body, o = HttpOutcome.ok body →
      PerplexityAPI.chat o = some body) := by
  refine ⟨fun m h => ?_, fun code m h => ?_, fun m h => ?_,
    fun body h => ?_⟩ <;> subst h <;> rfl

/-- C7, witness for `C7_client_error_handling` at concrete outcomes of
each kind. -/
theorem C7_client_error_handling_witness :
    PerplexityAPI.chat (HttpOutcome.transportError "connection refused") =
      none ∧
    PerplexityAPI.chat (HttpOutcome.httpError 500 "server error") = none ∧
    PerplexityAPI.chat (HttpOutcome.malformedBody "invalid json") = none ∧
    PerplexityAPI.chat (HttpOutcome.ok (ApiResponse.mk none)) =
      some (ApiResponse.mk none) :=
  ⟨(C7_client_error_handling _).1 _ rfl,
   (C7_client_error_handling _).2.1 _ _ rfl,
   (C7_client_error_handling _).2.2.1 _ rfl,
   (C7_client_error_handling _).2.2.2 _ rfl⟩

/-- C8: with the chatbot initialized, the stats endpoint reports
`total_conversations` equal to the history length and `last_activity`
equal to the timestamp of the most recently appended turn (the final
element) when the history is non-empty, or null when it is empty. -/
theorem C8_stats (history : List ConversationTurn) :
    get_stats none history =
      StatsResponse.stats history.length
        (history.getLast?.map ConversationTurn.timestamp) ∧
    (history = [] → get_stats none history = StatsResponse.stats 0 none) ∧
    (∀ pre t, history = pre ++ [t] →
      get_stats none history =
        StatsResponse.stats (pre.length + 1) (some t.timestamp)) := by
  refine ⟨rfl, fun h => by subst h; rfl, fun pre t h => ?_⟩
  subst h
  simp [get_stats, List.getLast?_concat]

/-- C8, witness for `C8_stats` at a concrete one-turn history. -/
theorem C8_stats_witness :
    get_stats none [ConversationTurn.mk "a" "b" 5 true] =
      StatsResponse.stats 1 (some 5) :=
  (C8_stats [ConversationTurn.mk "a" "b" 5 true]).2.2 []
    (ConversationTurn.mk "a" "b" 5 true) rfl

/-- C9: the history is append-only.  The readers
(`TravelChatbot.get_conversation_context`, `get_stats`,
`TravelChatbot.get_conversation_summary`) are pure functions of the
history in this embedding; the only operation that produces a new
history is `TravelChatbot.chat`, and every outcome of a chat call (and
hence of the chat endpoint wrapping it) leaves the stored turns
unchanged in order, appending at most one new turn at the end. -/
theorem C9_append_only (transport : List Message → String → HttpOutcome)
    (init : Option String) (history : List ConversationTurn)
    (message : String) (now : Int) :
    (∀ res h', (TravelChatbot.chat transport history message now).1 =
        Except.ok (res, h') →
        h' = history ∨
        h' = history ++ [ConversationTurn.mk message res now true]) ∧
    ((chat_endpoint transport init history message now).2.1 = history ∨
     ∃ t, (chat_endpoint transport init history message now).2.1 =
        history ++ [t]) := by
  have hfirst : ∀ res h',
      (TravelChatbot.chat transport history message now).1 =
        Except.ok (res, h') →
      h' = history ∨
      h' = history ++ [ConversationTurn.mk message res now true] := by
    intro res h' hok
    rcases chat_history_cases transport history message now with
      h | ⟨e, h⟩ | ⟨text, h⟩
    · rw [hok] at h
      simp only [Except.ok.injEq, Prod.mk.injEq] at h
      exact Or.inl h.2
    · rw [hok] at h
      simp at h
    · rw [hok] at h
      simp only [Except.ok.injEq, Prod.mk.injEq] at h
      rcases h with ⟨h1, h2⟩
      right
      rw [h2, h1]
  refine ⟨hfirst, ?_⟩
  cases init with
  | some e => exact Or.inl rfl
  | none =>
    by_cases hm : pyStrip message = ""
    · left
      simp [chat_endpoint, hm]
    · rcases hchat : TravelChatbot.chat transport history message now with
        ⟨r, calls⟩
      cases r with
      | error e =>
        left
        simp [chat_endpoint, hm, hchat]
      | ok v =>
        rcases v with ⟨text, h'⟩
        have hcase := hfirst text h' (by rw [hchat])
        have hend : (chat_endpoint transport none history message now).2.1 =
            h' := by
          simp [chat_endpoint, hm, hchat]
        rcases hcase with h | h
        · left
          rw [hend, h]
        · right
          exact ⟨_, by rw [hend, h]⟩

/-- C9, witness for `C9_append_only` at a concrete successful call:
the new history is the old history with the one new turn appended. -/
theorem C9_append_only_witness :
    ([ConversationTurn.mk "Where?" "Go to Bali!" 7 true] =
        ([] : List ConversationTurn) ∨
     [ConversationTurn.mk "Where?" "Go to Bali!" 7 true] =
        ([] : List ConversationTurn) ++
          [ConversationTurn.mk "Where?" "Go to Bali!" 7 true]) :=
  (C9_append_only (transportOk "Go to Bali!") none [] "Where?" 7).1
    "Go to Bali!" [ConversationTurn.mk "Where?" "Go to Bali!" 7 true] rfl

/-- C10: the health endpoint is a total function of the initialization
outcome and environment (it never raises) whose `status` field is
always the literal "healthy"; an initialization failure is reported
only through `chatbot_ready = false`. -/
theorem C10_health (init : Option String) (vercel : Bool) :
    (health_check init vercel).status = "healthy" ∧
    ((health_check init vercel).chatbot_ready = false ↔ init ≠ none) := by
  refine ⟨rfl, ?_⟩
  cases init <;> simp [health_check]

/-- C10, witness for `C10_health`: with a failed initialization
(missing API key) the body still reports status "healthy" and
`chatbot_ready = false`. -/
theorem C10_health_witness :
    (health_check
        (some "PERPLEXITY_API_KEY environment variable is required")
        false).status = "healthy" ∧
    (health_check
        (some "PERPLEXITY_API_KEY environment variable is required")
        false).chatbot_ready = false :=
  ⟨(C10_health
      (some "PERPLEXITY_API_KEY environment variable is required")
      false).1,
   (C10_health
      (some "PERPLEXITY_API_KEY environment variable is required")
      false).2.mpr (by simp)⟩
